import Mathlib

/-!
Verification of the `axdevice_base` crate (ArceOS hypervisor emulated-device
base traits) against its specification.  The Rust source in `src/lib.rs` is
shallowly embedded below: machine integers (`usize`, `u32`, `u8`) become `Nat`
with an explicit `% 2^64` where overflow matters, `Option`/`Result` become
`Option`/`Except`, traits with default methods become structures whose fields
carry the default bodies, and the `Any`-based downcast becomes a dependent pair
over a decidable index of concrete types.
-/

namespace AxDeviceBase

/-- Size of the `usize` value space (the crate targets 64-bit platforms). -/
def usizeSize : Nat := 2 ^ 64

/-- Error type of the external `axerrno` crate, abstracted to an error code. -/
structure AxError where
  code : Nat
deriving DecidableEq, Repr

/-- `AxResult<T> = Result<T, AxError>`. -/
abbrev AxResult (α : Type) := Except AxError α

/-- `TriggerMode`: interrupt trigger mode. -/
inductive TriggerMode where
  | Edge
  | Level
  | Msi
  | MsiX
deriving DecidableEq, Repr

/-- `CpuAffinity`: CPU affinity strategy for interrupt routing. -/
inductive CpuAffinity where
  | Fixed (cpu : Nat)
  | RoundRobin
  | LoadBalance
  | Broadcast
deriving DecidableEq, Repr

/-- `IrqType`: primary or additional interrupt. -/
inductive IrqType where
  | Primary
  | Additional (n : Nat)
deriving DecidableEq, Repr

/-- `InterruptConfig`: legacy interrupt configuration of a device. -/
structure InterruptConfig where
  primary_irq : Nat
  additional_irqs : List Nat
  trigger_mode : TriggerMode
  cpu_affinity : CpuAffinity
  priority : Nat
deriving DecidableEq, Repr

/-- `NotifyMethod`: how a device signals the guest. -/
inductive NotifyMethod where
  | Interrupt
  | Poll
  | Callback
  | Event
deriving DecidableEq, Repr

/-- `DeviceEvent`: semantic device event tags. -/
inductive DeviceEvent where
  | DataReady
  | SpaceAvailable
  | ConfigChanged
  | Irq (t : IrqType)
  | Custom (n : Nat)
deriving DecidableEq, Repr

/-- `DeviceEvent::as_flag`: convert an event to a poll-flag bit
(`1 << 0` .. `1 << 2`, `1 << 3`, `1 << (4 + n % 12)`, `1 << (16 + n % 16)`). -/
def DeviceEvent.as_flag : DeviceEvent → Nat
  | .DataReady => 1 <<< 0
  | .SpaceAvailable => 1 <<< 1
  | .ConfigChanged => 1 <<< 2
  | .Irq .Primary => 1 <<< 3
  | .Irq (.Additional n) => 1 <<< (4 + n % 12)
  | .Custom n => 1 <<< (16 + n % 16)

/-- `DeviceEvent::is_set_in`: `(flags & self.as_flag()) != 0`. -/
def DeviceEvent.is_set_in (e : DeviceEvent) (flags : Nat) : Bool :=
  (flags &&& e.as_flag) != 0

/-- `NotificationConfig`: notification configuration of a device. -/
structure NotificationConfig where
  method : NotifyMethod
  primary_irq : Option Nat
  additional_irqs : List Nat
  trigger_mode : TriggerMode
  cpu_affinity : CpuAffinity
  priority : Nat
  coalesce : Bool
deriving DecidableEq, Repr

/-- `impl Default for NotificationConfig`. -/
def NotificationConfig.defaultConfig : NotificationConfig where
  method := .Interrupt
  primary_irq := none
  additional_irqs := []
  trigger_mode := .Level
  cpu_affinity := .Fixed 0
  priority := 100
  coalesce := false

/-- `NotificationConfig::interrupt`. -/
def NotificationConfig.interrupt (irq : Nat) : NotificationConfig :=
  { NotificationConfig.defaultConfig with
    method := .Interrupt
    primary_irq := some irq }

/-- `NotificationConfig::poll`. -/
def NotificationConfig.poll : NotificationConfig :=
  { NotificationConfig.defaultConfig with
    method := .Poll
    primary_irq := none
    coalesce := true }

/-- `NotificationConfig::event`. -/
def NotificationConfig.event : NotificationConfig :=
  { NotificationConfig.defaultConfig with
    method := .Event
    primary_irq := none
    coalesce := true }

/-- `NotificationConfig::from_interrupt_config`. -/
def NotificationConfig.from_interrupt_config (config : InterruptConfig) : NotificationConfig where
  method := .Interrupt
  primary_irq := some config.primary_irq
  additional_irqs := config.additional_irqs
  trigger_mode := config.trigger_mode
  cpu_affinity := config.cpu_affinity
  priority := config.priority
  coalesce := false

/-- `NotificationConfig::to_interrupt_config`: returns `None` unless the
method is `Interrupt` and a primary IRQ is present. -/
def NotificationConfig.to_interrupt_config (c : NotificationConfig) : Option InterruptConfig :=
  if c.method ≠ NotifyMethod.Interrupt then
    none
  else
    match c.primary_irq with
    | none => none
    | some irq =>
      some { primary_irq := irq
             additional_irqs := c.additional_irqs
             trigger_mode := c.trigger_mode
             cpu_affinity := c.cpu_affinity
             priority := c.priority }

/-- `DeviceNotifier` trait: modelled as a record of its methods; the `clear`
and `has_pending` fields default to the trait's default bodies. -/
structure DeviceNotifier where
  notify : DeviceEvent → AxResult Unit
  clear : DeviceEvent → AxResult Unit := fun _ => .ok ()
  method : NotifyMethod
  has_pending : Bool := false

/-- `InterruptTrigger` trait (legacy), modelled as a record of its methods. -/
structure InterruptTrigger where
  trigger : IrqType → AxResult Unit
  clear : IrqType → AxResult Unit

/-- The blanket `impl<T: DeviceNotifier + ?Sized> InterruptTrigger for T`:
`trigger` wraps into `notify(DeviceEvent::Irq(..))` and `clear` into
`DeviceNotifier::clear(DeviceEvent::Irq(..))`. -/
def notifierAsInterruptTrigger (n : DeviceNotifier) : InterruptTrigger where
  trigger := fun irq_type => n.notify (DeviceEvent.Irq irq_type)
  clear := fun irq_type => n.clear (DeviceEvent.Irq irq_type)

/-- `RegionId`: small integer tag for fast region matching. -/
structure RegionId where
  tag : Nat
deriving DecidableEq, Repr

/-- `RegionId::CONTROL`. -/
def RegionId.CONTROL : RegionId := ⟨0⟩
/-- `RegionId::STATUS`. -/
def RegionId.STATUS : RegionId := ⟨1⟩
/-- `RegionId::NOTIFICATION`. -/
def RegionId.NOTIFICATION : RegionId := ⟨2⟩
/-- `RegionId::CONFIG`. -/
def RegionId.CONFIG : RegionId := ⟨3⟩
/-- `RegionId::DATA`. -/
def RegionId.DATA : RegionId := ⟨4⟩
/-- `RegionId::DEFAULT`. -/
def RegionId.DEFAULT : RegionId := ⟨5⟩

/-- `RegionType`: semantic classification of a region. -/
inductive RegionType where
  | Generic
  | Control
  | Status
  | Data
  | Notification
  | Config
  | PciConfig
  | PciBar (n : Nat)
deriving DecidableEq, Repr

/-- `Permissions`: access permissions of a region. -/
inductive Permissions where
  | ReadWrite
  | ReadOnly
  | WriteOnly
  | None
deriving DecidableEq, Repr

/-- `RegionHit`: result of a successful region lookup. -/
structure RegionHit where
  region_id : RegionId
  offset : Nat
  region_type : RegionType
  permissions : Permissions
deriving DecidableEq, Repr

/-- `DeviceRegion`: one address region of a device.  `base` and `size` are
`usize` values, represented as naturals below `usizeSize`. -/
structure DeviceRegion where
  id : RegionId
  name : String
  base : Nat
  size : Nat
  region_type : RegionType
  permissions : Permissions
deriving DecidableEq, Repr

/-- `DeviceRegion::new`. -/
def DeviceRegion.new (id : RegionId) (name : String) (base size : Nat) : DeviceRegion where
  id := id
  name := name
  base := base
  size := size
  region_type := .Generic
  permissions := .ReadWrite

/-- `DeviceRegion::with_type`. -/
def DeviceRegion.with_type (r : DeviceRegion) (region_type : RegionType) : DeviceRegion :=
  { r with region_type := region_type }

/-- `DeviceRegion::with_permissions`. -/
def DeviceRegion.with_permissions (r : DeviceRegion) (permissions : Permissions) : DeviceRegion :=
  { r with permissions := permissions }

/-- `DeviceRegion::contains`: `addr >= self.base && addr < self.base + self.size`,
where `self.base + self.size` is `usize` addition, wrapping modulo `2^64`. -/
def DeviceRegion.contains (r : DeviceRegion) (addr : Nat) : Bool :=
  decide (addr ≥ r.base) && decide (addr < (r.base + r.size) % usizeSize)

/-- `DeviceRegion::end`: the exclusive end address, `usize` addition. -/
def DeviceRegion.endAddr (r : DeviceRegion) : Nat :=
  (r.base + r.size) % usizeSize

/-- `DeviceRegion::try_hit`: `Some(RegionHit)` when the region contains `addr`. -/
def DeviceRegion.try_hit (r : DeviceRegion) (addr : Nat) : Option RegionHit :=
  if r.contains addr then
    some { region_id := r.id
           offset := addr - r.base
           region_type := r.region_type
           permissions := r.permissions }
  else
    none

/-- `MAX_REGIONS_PER_DEVICE`. -/
def MAX_REGIONS_PER_DEVICE : Nat := 8

/-- `RegionDescriptor`: ordered fixed-capacity list of regions (`ArrayVec`
with capacity `MAX_REGIONS_PER_DEVICE`); the capacity bound appears as a
hypothesis of the theorems below. -/
structure RegionDescriptor where
  regions : List DeviceRegion
deriving DecidableEq, Repr

/-- `RegionDescriptor::new`. -/
def RegionDescriptor.new : RegionDescriptor := ⟨[]⟩

/-- `RegionDescriptor::with_region`: `ArrayVec::push` appends the region and
panics when the vector is already full; the panic is modelled as `none`. -/
def RegionDescriptor.with_region (d : RegionDescriptor) (region : DeviceRegion) :
    Option RegionDescriptor :=
  if d.regions.length < MAX_REGIONS_PER_DEVICE then
    some ⟨d.regions ++ [region]⟩
  else
    none

/-- `RegionDescriptor::single`. -/
def RegionDescriptor.single (base size : Nat) : Option RegionDescriptor :=
  RegionDescriptor.new.with_region (DeviceRegion.new RegionId.DEFAULT "default" base size)

/-- `RegionDescriptor::len`. -/
def RegionDescriptor.len (d : RegionDescriptor) : Nat := d.regions.length

/-- `RegionDescriptor::is_empty`. -/
def RegionDescriptor.is_empty (d : RegionDescriptor) : Bool := d.regions.isEmpty

/-- `RegionDescriptor::lookup`: `self.regions.iter().find_map(|r| r.try_hit(addr))`. -/
def RegionDescriptor.lookup (d : RegionDescriptor) (addr : Nat) : Option RegionHit :=
  d.regions.findSome? (fun r => r.try_hit addr)

/-- `AccessWidth` (external `axaddrspace` enum). -/
inductive AccessWidth where
  | Byte
  | Halfword
  | Word
  | Dword
deriving DecidableEq, Repr

/-- `BaseDeviceOps` trait, modelled as a record of its methods over an abstract
device-type tag `E` (`EmuDeviceType`), address-range type `R`, address type `A`
and device state `σ`; `set_notifier` is modelled as a state transformer.  The
optional methods carry the trait's default bodies as field defaults. -/
structure BaseDeviceOps (E R A σ : Type) where
  emu_type : σ → E
  address_ranges : σ → List R
  handle_read : σ → A → AccessWidth → AxResult Nat
  handle_write : σ → A → AccessWidth → Nat → AxResult Unit
  interrupt_config : σ → Option InterruptConfig := fun _ => none
  notification_config : σ → Option NotificationConfig := fun s =>
    (interrupt_config s).map (fun ic => NotificationConfig.from_interrupt_config ic)
  set_notifier : σ → DeviceNotifier → σ := fun s _ => s
  region_descriptor : σ → Option RegionDescriptor := fun _ => none
  region_lookup : σ → Nat → Option RegionHit := fun s addr =>
    match region_descriptor s with
    | none => none
    | some rd => rd.lookup addr
  notify_region_change : σ → Bool := fun _ => false

/-- A device implementing only the four required operations of
`BaseDeviceOps`, every optional operation left at its default body. -/
def minimalDevice {E R A σ : Type} (emu_type : σ → E) (address_ranges : σ → List R)
    (handle_read : σ → A → AccessWidth → AxResult Nat)
    (handle_write : σ → A → AccessWidth → Nat → AxResult Unit) : BaseDeviceOps E R A σ where
  emu_type := emu_type
  address_ranges := address_ranges
  handle_read := handle_read
  handle_write := handle_write

/-- `map_device_of_type`: the `Arc<dyn Any>` downcast is modelled over an
index `ι` of concrete device types with decidable type identity and a family
`Ty` of their value types; a type-erased handle is a dependent pair.  On a
type-identity match the function `f` is applied to the stored value; on a
mismatch the result is `none`. -/
def map_device_of_type {ι : Type} [DecidableEq ι] {Ty : ι → Type} {U : Type}
    (t : ι) (device : Σ i, Ty i) (f : Ty t → U) : Option U :=
  if h : device.1 = t then some (f (h ▸ device.2)) else none

/-- Modelled from the spec (first-match policy): the first region, in
registration order, whose domain contains `addr`; `none` when no region
matches. -/
def firstContaining (rs : List DeviceRegion) (addr : Nat) : Option DeviceRegion :=
  match rs with
  | [] => none
  | r :: rest => if r.contains addr then some r else firstContaining rest addr

/-- Modelled from the spec: the `RegionHit` a lookup reports for region `r` at
address `addr` — the region's id, the offset relative to the region's base,
and the region's type and permissions. -/
def DeviceRegion.hitAt (r : DeviceRegion) (addr : Nat) : RegionHit where
  region_id := r.id
  offset := addr - r.base
  region_type := r.region_type
  permissions := r.permissions

/-- Modelled from the spec: the bit position the specification assigns to each
`DeviceEvent` (`as_flag` is claimed to be `1` shifted by exactly this). -/
def flagBitSpec : DeviceEvent → Nat
  | .DataReady => 0
  | .SpaceAvailable => 1
  | .ConfigChanged => 2
  | .Irq .Primary => 3
  | .Irq (.Additional n) => 4 + n % 12
  | .Custom n => 16 + n % 16

/-- Sample control region `[0x1000, 0x1100)` used by concrete witnesses. -/
def ctrlRegion : DeviceRegion :=
  (DeviceRegion.new RegionId.CONTROL "control" 0x1000 0x100).with_type .Control

/-- Sample data region `[0x1000, 0x1200)` deliberately overlapping
`ctrlRegion`, used by concrete witnesses. -/
def overlapRegion : DeviceRegion :=
  (DeviceRegion.new RegionId.DATA "data" 0x1000 0x200).with_type .Data

/-- A descriptor whose two regions overlap; registration order is
`ctrlRegion` first. -/
def overlapDescriptor : RegionDescriptor := ⟨[ctrlRegion, overlapRegion]⟩

/-- A descriptor already holding `MAX_REGIONS_PER_DEVICE` regions. -/
def fullDescriptor : RegionDescriptor :=
  ⟨(List.range MAX_REGIONS_PER_DEVICE).map
    (fun i => DeviceRegion.new ⟨i⟩ "r" (0x1000 * i) 0x100)⟩

/-- A region whose `base + size` exceeds `usize::MAX`: base `2^64 - 1`,
size `2`. -/
def wrapRegion : DeviceRegion :=
  DeviceRegion.new RegionId.DEFAULT "wrap" (usizeSize - 1) 2

/-- Helper: over any region list, `findSome?` of `try_hit` reports exactly the
hit of the first region containing the address. -/
lemma findSome_try_hit_eq_firstContaining (addr : Nat) :
    ∀ rs : List DeviceRegion,
      rs.findSome? (fun r => r.try_hit addr) =
        (firstContaining rs addr).map (fun r => r.hitAt addr) := by
  intro rs
  induction rs with
  | nil => rfl
  | cons r rest ih =>
    rw [List.findSome?_cons]
    by_cases hc : r.contains addr
    · have ht : r.try_hit addr = some (r.hitAt addr) := by
        simp [DeviceRegion.try_hit, hc, DeviceRegion.hitAt]
      rw [ht]
      simp [firstContaining, hc]
    · have ht : r.try_hit addr = none := by
        simp [DeviceRegion.try_hit, hc]
      rw [ht]
      simp [firstContaining, hc, ih]

/-- C1: for a `RegionDescriptor` with at most 8 regions, `lookup addr` returns
the `RegionHit` of the first region, in registration order, containing `addr`
(first-registered wins on overlap), and `none` when no region contains it. -/
theorem lookup_first_match (d : RegionDescriptor) (addr : Nat)
    (_h : d.regions.length ≤ MAX_REGIONS_PER_DEVICE) :
    d.lookup addr = (firstContaining d.regions addr).map (fun r => r.hitAt addr) :=
  findSome_try_hit_eq_firstContaining addr d.regions

/-- C1 witness: on a descriptor of two overlapping regions, `lookup` at
`0x1050` agrees with the first-match policy. -/
theorem lookup_first_match_witness :
    overlapDescriptor.regions.length ≤ MAX_REGIONS_PER_DEVICE ∧
      overlapDescriptor.lookup 0x1050 =
        (firstContaining overlapDescriptor.regions 0x1050).map
          (fun r => r.hitAt 0x1050) :=
  ⟨by decide, lookup_first_match overlapDescriptor 0x1050 (by decide)⟩

/-- C2: for a non-overflowing region, `contains addr` holds exactly when
`base ≤ addr < base + size`, and `try_hit addr` is `some` exactly then, with
the hit carrying the offset `addr - base` and the region's id, type and
permissions. -/
theorem contains_try_hit_spec (r : DeviceRegion) (addr : Nat)
    (hno : r.base + r.size < usizeSize) :
    (r.contains addr = true ↔ r.base ≤ addr ∧ addr < r.base + r.size) ∧
      r.try_hit addr =
        (if r.base ≤ addr ∧ addr < r.base + r.size then
          some { region_id := r.id
                 offset := addr - r.base
                 region_type := r.region_type
                 permissions := r.permissions }
        else none) := by
  have hmod : (r.base + r.size) % usizeSize = r.base + r.size := Nat.mod_eq_of_lt hno
  have hiff : r.contains addr = true ↔ r.base ≤ addr ∧ addr < r.base + r.size := by
    simp [DeviceRegion.contains, hmod, ge_iff_le]
  refine ⟨hiff, ?_⟩
  by_cases hin : r.base ≤ addr ∧ addr < r.base + r.size
  · rw [if_pos hin, DeviceRegion.try_hit, if_pos (hiff.mpr hin)]
  · rw [if_neg hin, DeviceRegion.try_hit, if_neg]
    intro hc
    exact hin (hiff.mp hc)

/-- C2 witness: the control region `[0x1000, 0x1100)` at address `0x1050`. -/
theorem contains_try_hit_spec_witness :
    ctrlRegion.base + ctrlRegion.size < usizeSize ∧
      ((ctrlRegion.contains 0x1050 = true ↔
          ctrlRegion.base ≤ 0x1050 ∧ 0x1050 < ctrlRegion.base + ctrlRegion.size) ∧
        ctrlRegion.try_hit 0x1050 =
          (if ctrlRegion.base ≤ 0x1050 ∧ 0x1050 < ctrlRegion.base + ctrlRegion.size then
            some { region_id := ctrlRegion.id
                   offset := 0x1050 - ctrlRegion.base
                   region_type := ctrlRegion.region_type
                   permissions := ctrlRegion.permissions }
          else none)) :=
  ⟨by decide, contains_try_hit_spec ctrlRegion 0x1050 (by decide)⟩

/-- C3: pushing a region onto a descriptor already holding
`MAX_REGIONS_PER_DEVICE` regions fails (the `ArrayVec::push` inside
`with_region` is a capacity overflow, modelled as `none`); no descriptor with
the region dropped or truncated is returned. -/
theorem with_region_full_fails (d : RegionDescriptor) (r : DeviceRegion)
    (h : d.regions.length = MAX_REGIONS_PER_DEVICE) :
    d.with_region r = none := by
  rw [RegionDescriptor.with_region, if_neg]
  rw [h]
  exact lt_irrefl _

/-- C3 witness: a concrete descriptor of 8 regions rejects a 9th. -/
theorem with_region_full_fails_witness :
    fullDescriptor.regions.length = MAX_REGIONS_PER_DEVICE ∧
      fullDescriptor.with_region (DeviceRegion.new RegionId.DATA "extra" 0x9000 0x100) =
        none :=
  ⟨by rfl,
    with_region_full_fails fullDescriptor
      (DeviceRegion.new RegionId.DATA "extra" 0x9000 0x100) (by rfl)⟩

/-- C4: `as_flag` is total and deterministic, returning the single bit at the
position the spec assigns (0, 1, 2, 3, `4 + n % 12`, `16 + n % 16`), always
below 32; and `is_set_in flags` holds exactly when `flags &&& as_flag` is
nonzero. -/
theorem as_flag_bits (e : DeviceEvent) (flags : Nat) :
    e.as_flag = 2 ^ flagBitSpec e ∧ flagBitSpec e < 32 ∧
      (e.is_set_in flags = true ↔ flags &&& e.as_flag ≠ 0) := by
  refine ⟨?_, ?_, ?_⟩
  · cases e with
    | DataReady => rfl
    | SpaceAvailable => rfl
    | ConfigChanged => rfl
    | Irq t =>
      cases t with
      | Primary => rfl
      | Additional n => simp [DeviceEvent.as_flag, flagBitSpec, Nat.shiftLeft_eq]
    | Custom n => simp [DeviceEvent.as_flag, flagBitSpec, Nat.shiftLeft_eq]
  · cases e with
    | DataReady => decide
    | SpaceAvailable => decide
    | ConfigChanged => decide
    | Irq t =>
      cases t with
      | Primary => decide
      | Additional n =>
        have := Nat.mod_lt n (show 0 < 12 by decide)
        simp only [flagBitSpec]
        omega
    | Custom n =>
      have := Nat.mod_lt n (show 0 < 16 by decide)
      simp only [flagBitSpec]
      omega
  · simp [DeviceEvent.is_set_in]

/-- C5: converting an `InterruptConfig` to a `NotificationConfig` and back
recovers the original configuration in every field. -/
theorem interrupt_config_roundtrip (ic : InterruptConfig) :
    (NotificationConfig.from_interrupt_config ic).to_interrupt_config = some ic := rfl

/-- C6: the blanket adapter gives every `DeviceNotifier` the legacy
`InterruptTrigger` behavior: `trigger` is exactly `notify (Irq ..)` and
`clear` is exactly the notifier's `clear (Irq ..)`. -/
theorem notifier_trigger_adapter (n : DeviceNotifier) (irq_type : IrqType) :
    (notifierAsInterruptTrigger n).trigger irq_type =
        n.notify (DeviceEvent.Irq irq_type) ∧
      (notifierAsInterruptTrigger n).clear irq_type =
        n.clear (DeviceEvent.Irq irq_type) :=
  ⟨rfl, rfl⟩

/-- C7: a device supplying only the four required operations gets inert
defaults: no notification config, `set_notifier` leaves the state unchanged,
no region descriptor, `region_lookup` is exactly the descriptor lookup (hence
`none`), and `notify_region_change` is `false`. -/
theorem minimal_device_defaults {E R A σ : Type} (et : σ → E) (ar : σ → List R)
    (hr : σ → A → AccessWidth → AxResult Nat)
    (hw : σ → A → AccessWidth → Nat → AxResult Unit)
    (s : σ) (n : DeviceNotifier) (addr : Nat) :
    (minimalDevice et ar hr hw).notification_config s = none ∧
      (minimalDevice et ar hr hw).set_notifier s n = s ∧
      (minimalDevice et ar hr hw).region_descriptor s = none ∧
      (minimalDevice et ar hr hw).region_lookup s addr =
        (match (minimalDevice et ar hr hw).region_descriptor s with
          | none => (none : Option RegionHit)
          | some rd => rd.lookup addr) ∧
      (minimalDevice et ar hr hw).region_lookup s addr = none ∧
      (minimalDevice et ar hr hw).notify_region_change s = false :=
  ⟨rfl, rfl, rfl, rfl, rfl, rfl⟩

/-- C8: `map_device_of_type` applied at the handle's own concrete type invokes
`f` on the stored value and returns `some` of its result; applied at a
different concrete type it returns `none`. -/
theorem map_device_of_type_spec {ι : Type} [DecidableEq ι] (Ty : ι → Type)
    {U : Type} (t u : ι) (v : Ty t) (w : Ty u) (f : Ty t → U) (h : t ≠ u) :
    map_device_of_type t ⟨t, v⟩ f = some (f v) ∧
      map_device_of_type t ⟨u, w⟩ f = none := by
  constructor
  · rw [map_device_of_type, dif_pos rfl]
  · rw [map_device_of_type, dif_neg]
    exact fun hh => h hh.symm

/-- C8 witness: over the index type `Nat` with values `Nat`, a matching
downcast maps the stored value and a mismatching one returns `none`. -/
theorem map_device_of_type_spec_witness :
    (0 : Nat) ≠ 1 ∧
      (map_device_of_type 0 (⟨0, 5⟩ : Σ _ : Nat, Nat) (fun x => x + 1) = some 6 ∧
        map_device_of_type 0 (⟨1, 7⟩ : Σ _ : Nat, Nat) (fun x => x + 1) = none) :=
  ⟨by decide,
    map_device_of_type_spec (fun _ : Nat => Nat) 0 1 5 7 (fun x => x + 1) (by decide)⟩

/-- C9: `NotificationConfig::poll()` selects the `Poll` method, enables
coalescing, and requires no primary IRQ. -/
theorem poll_config_spec :
    NotificationConfig.poll.method = NotifyMethod.Poll ∧
      NotificationConfig.poll.coalesce = true ∧
      NotificationConfig.poll.primary_irq = none :=
  ⟨rfl, rfl, rfl⟩

/-- C10: `contains` computes `base + size` in `usize` arithmetic, so a region
whose mathematical `base + size` exceeds `usize::MAX` does not contain every
address of the mathematical interval `[base, base + size)`: already its own
base address, which lies in that interval, is reported as not contained. -/
theorem contains_overflow_unreachable (r : DeviceRegion)
    (hbase : r.base < usizeSize) (hsize : r.size < usizeSize)
    (hpos : 0 < r.size) (hover : usizeSize ≤ r.base + r.size) :
    r.base < r.base + r.size ∧ r.contains r.base = false := by
  have hU : usizeSize = 18446744073709551616 := by norm_num [usizeSize]
  have hmod : (r.base + r.size) % usizeSize = r.base + r.size - usizeSize := by
    rw [Nat.mod_eq_sub_mod hover, Nat.mod_eq_of_lt]
    omega
  refine ⟨by omega, ?_⟩
  simp only [DeviceRegion.contains, hmod, Bool.and_eq_false_iff, decide_eq_false_iff_not]
  right
  omega

/-- C10 witness: for the region with base `2^64 - 1` and size `2`, the base
address lies in the mathematical interval yet `contains` rejects it. -/
theorem contains_overflow_unreachable_witness :
    (wrapRegion.base < usizeSize ∧ wrapRegion.size < usizeSize ∧
        0 < wrapRegion.size ∧ usizeSize ≤ wrapRegion.base + wrapRegion.size) ∧
      (wrapRegion.base < wrapRegion.base + wrapRegion.size ∧
        wrapRegion.contains wrapRegion.base = false) :=
  ⟨⟨by decide, by decide, by decide, by decide⟩,
    contains_overflow_unreachable wrapRegion (by decide) (by decide) (by decide)
      (by decide)⟩

end AxDeviceBase
